import Mathlib

/-!
Verification of the Aizasy streaming gateway (`src/main.rs`): a shallow
embedding of the relay engine (`proxy_handler`), the header sanitization
performed there, the target-URL construction, the startup configuration
of `main`, and the response relay path.

Modelling conventions:
* A header set is a list of (name, value) entries, in wire order.  The
  `http` crate normalizes header names to ASCII lowercase on parse; here
  names are kept as given and every name comparison the code performs via
  `HeaderMap` is modelled as comparison of ASCII-lowercased names, which
  is observationally the same.
* Bodies are lists of byte chunks (`List (List Nat)`); the code wires the
  inbound/outbound streams through unchanged (`into_data_stream` /
  `wrap_stream` / `bytes_stream` / `from_stream` only adapt types and map
  errors), which is modelled as the chunk list passing through verbatim.
* The network send (`reqwest::RequestBuilder::send`) is a parameter
  `send : OutboundRequest → Except String UpstreamResponse`; the handler
  additionally returns the list of outbound requests it dispatched, so
  "the upstream is contacted exactly once / never" is provable.
* `reqwest::Proxy::all` (third-party URL parsing) is a parameter
  `parseProxy : String → Option Proxy`; `main`'s `.expect` on its result,
  which aborts the process, is modelled as `Except.error`.
-/

/-- One header entry: a name/value pair.  Repeated names model repeated
wire entries (a multiset of entries, kept in order). -/
structure HeaderEntry where
  name : String
  value : String
deriving DecidableEq

/-- A header set, as the wire-ordered list of its entries. -/
abbrev Headers := List HeaderEntry

/-- ASCII-lowercase a header name, modelling the case-insensitive name
matching of `http::HeaderMap`. -/
def lowerName (s : String) : String := String.mk (s.data.map Char.toLower)

/-- `HeaderMap::remove(n)`: drop every entry whose name matches `n`
case-insensitively.  (`remove` drops the whole entry, all values.) -/
def removeHeader (n : String) (hs : Headers) : Headers :=
  hs.filter (fun h => lowerName h.name != lowerName n)

/-- The header sanitization block of `proxy_handler` (main.rs:122-129):
`new_headers` starts as a clone of the inbound headers, then `host`,
`cf-connecting-ip`, `cf-ipcountry`, `x-forwarded-for` and
`content-length` are removed, in that order. -/
def sanitizeHeaders (hs : Headers) : Headers :=
  removeHeader "content-length"
    (removeHeader "x-forwarded-for"
      (removeHeader "cf-ipcountry"
        (removeHeader "cf-connecting-ip"
          (removeHeader "host" hs))))

/-- The names `proxy_handler` removes from the inbound header set. -/
def removedNames : List String :=
  ["host", "cf-connecting-ip", "cf-ipcountry", "x-forwarded-for", "content-length"]

/-- Whether an entry survives sanitization: its lowercased name is none
of the removed names. -/
def keptEntry (h : HeaderEntry) : Bool :=
  !(removedNames.contains (lowerName h.name))

/-- `HeaderMap::insert(k, v)`: all previous values of `k` are removed and
the single new value is associated with `k`. -/
def insertHeader (hs : Headers) (e : HeaderEntry) : Headers :=
  hs.filter (fun h => h.name != e.name) ++ [e]

/-- The response-header copy loop of `proxy_handler` (main.rs:155-158):
`resp_headers` starts empty and every upstream `(k, v)` pair is
`insert`ed in iteration order. -/
def copyHeaders (hs : Headers) : Headers :=
  hs.foldl insertHeader []

/-- A body chunk: a list of bytes. -/
abbrev Chunk := List Nat

/-- An upstream response as `proxy_handler` consumes it: status code,
header entries in iteration order, body as a live chunk stream. -/
structure UpstreamResponse where
  status : Nat
  headers : Headers
  bodyChunks : List Chunk
deriving DecidableEq

/-- The body of the response returned to the client: either a live
stream of chunks (success path, `Body::from_stream`) or a single fully
materialized text (error path, `format!`). -/
inductive RespBody where
  | stream (chunks : List Chunk)
  | full (text : String)
deriving DecidableEq

/-- The response `proxy_handler` hands back to axum. -/
structure ClientResponse where
  status : Nat
  headers : Headers
  body : RespBody
deriving DecidableEq

/-- An inbound request as `proxy_handler` receives it: method,
`path_and_query` of the URI (absent when the URI has none), header set,
and the body as a chunk stream. -/
structure InboundRequest where
  method : String
  pathAndQuery : Option String
  headers : Headers
  bodyChunks : List Chunk
deriving DecidableEq

/-- The outbound request assembled by `proxy_handler`: the `reqwest`
request built from method, target URI, sanitized headers and the wrapped
body stream. -/
structure OutboundRequest where
  method : String
  url : String
  headers : Headers
  bodyChunks : List Chunk
deriving DecidableEq

/-- The `reqwest::Client` configuration assembled by `main`
(main.rs:57-82): pool, TCP, timeout, gzip, proxy and TLS settings. -/
structure ClientConfig where
  poolIdleTimeoutSecs : Nat
  poolMaxIdlePerHost : Nat
  tcpNodelay : Bool
  connectTimeoutSecs : Nat
  http2KeepAliveIntervalSecs : Nat
  gzipEnabled : Bool
  proxyUrl : Option String
  acceptInvalidCerts : Bool
deriving DecidableEq

/-- The builder chain of main.rs:57-67 before the conditional proxy and
TLS tweaks: idle timeout 90 s, 50 idle per host, TCP no-delay, connect
timeout 10 s, HTTP/2 keep-alive 20 s, and `no_gzip()`. -/
def baseClientConfig : ClientConfig :=
  { poolIdleTimeoutSecs := 90
    poolMaxIdlePerHost := 50
    tcpNodelay := true
    connectTimeoutSecs := 10
    http2KeepAliveIntervalSecs := 20
    gzipEnabled := false
    proxyUrl := none
    acceptInvalidCerts := false }

/-- The shared state `main` builds: the configured client and
`target_url = args.target.trim_end_matches('/')`. -/
structure AppState where
  clientConfig : ClientConfig
  targetUrl : String
deriving DecidableEq

/-- `str::trim_end_matches('/')`: remove every trailing `'/'`. -/
def trimEndSlashes (s : String) : String :=
  String.mk ((s.data.reverse.dropWhile (fun c => c == '/')).reverse)

/-- Whether a string ends with `'/'`. -/
def endsWithSlash (s : String) : Bool :=
  s.data.getLast? == some '/'

/-- The command-line arguments `main` consumes (main.rs:21-36). -/
structure Args where
  listen : String
  proxy : Option String
  target : String
  insecure : Bool
deriving DecidableEq

/-- The client-building part of `main` (main.rs:57-82), parametrized by
`reqwest::Proxy::all`'s parsing (`parseProxy`, third-party code): the
`.expect("代理地址格式错误")` on a failed parse aborts the process,
modelled as `Except.error`. -/
def buildClient (parseProxy : String → Option String) (args : Args) :
    Except String ClientConfig :=
  match args.proxy with
  | none =>
      Except.ok { baseClientConfig with acceptInvalidCerts := args.insecure }
  | some purl =>
      match parseProxy purl with
      | none => Except.error "代理地址格式错误"
      | some p =>
          Except.ok { baseClientConfig with
                        proxyUrl := some p
                        acceptInvalidCerts := args.insecure }

/-- The startup sequence of `main` up to the construction of the shared
`AppState` (main.rs:57-87): build the client, then store
`target_url = args.target.trim_end_matches('/')`.  An error here occurs
before the listener is bound and before any request is served. -/
def startup (parseProxy : String → Option String) (args : Args) :
    Except String AppState :=
  (buildClient parseProxy args).map
    (fun cfg => { clientConfig := cfg, targetUrl := trimEndSlashes args.target })

/-- main.rs:118-119: `path_and_query` defaulted to "/" and concatenated
onto the stored target. -/
def buildTargetUri (target : String) (pq : Option String) : String :=
  target ++ pq.getD "/"

/-- main.rs:118-150: assemble the outbound `reqwest` request: inbound
method, concatenated target URI, sanitized headers, and the inbound body
stream wrapped unchanged (`into_data_stream` + `wrap_stream` pass every
data chunk through; `map_err` only converts the error type). -/
def buildOutbound (st : AppState) (req : InboundRequest) : OutboundRequest :=
  { method := req.method
    url := buildTargetUri st.targetUrl req.pathAndQuery
    headers := sanitizeHeaders req.headers
    bodyChunks := req.bodyChunks }

/-- main.rs:152-171: turn the result of `send()` into the client-facing
response.  Success: upstream status, headers copied via the insert loop,
body wired through as a stream.  Failure: 502 with the plain-text body
`"Proxy Error: " ++ e` (no headers set by the handler). -/
def respond (res : Except String UpstreamResponse) : ClientResponse :=
  match res with
  | Except.ok r =>
      { status := r.status
        headers := copyHeaders r.headers
        body := RespBody.stream r.bodyChunks }
  | Except.error e =>
      { status := 502
        headers := []
        body := RespBody.full ("Proxy Error: " ++ e) }

/-- The whole of `proxy_handler` (main.rs:111-172), with the network
send as a parameter.  Also returns the list of outbound requests
dispatched: the code calls `send()` exactly once, with no retry. -/
def proxyHandler (st : AppState) (req : InboundRequest)
    (send : OutboundRequest → Except String UpstreamResponse) :
    ClientResponse × List OutboundRequest :=
  let out := buildOutbound st req
  (respond (send out), [out])

/-! ## Basic lemmas about the embedded operations -/

/-- The five removals of main.rs:123-129 amount to a single filter by
`keptEntry`. -/
theorem sanitizeHeaders_eq_filter (hs : Headers) :
    sanitizeHeaders hs = hs.filter keptEntry := by
  unfold sanitizeHeaders removeHeader
  simp only [List.filter_filter]
  refine List.filter_congr ?_
  intro h _
  simp only [keptEntry, removedNames, List.contains_cons,
    List.contains_nil, Bool.or_false, Bool.not_or, bne]
  generalize lowerName h.name = x
  have e1 : lowerName "host" = "host" := by decide
  have e2 : lowerName "cf-connecting-ip" = "cf-connecting-ip" := by decide
  have e3 : lowerName "cf-ipcountry" = "cf-ipcountry" := by decide
  have e4 : lowerName "x-forwarded-for" = "x-forwarded-for" := by decide
  have e5 : lowerName "content-length" = "content-length" := by decide
  rw [e1, e2, e3, e4, e5]
  generalize (x == "host") = b1
  generalize (x == "cf-connecting-ip") = b2
  generalize (x == "cf-ipcountry") = b3
  generalize (x == "x-forwarded-for") = b4
  generalize (x == "content-length") = b5
  revert b1 b2 b3 b4 b5
  decide

/-- The head surviving a `dropWhile` does not satisfy the predicate. -/
theorem head_dropWhile_false {α : Type _} (p : α → Bool) (l : List α) (a : α)
    (h : (l.dropWhile p).head? = some a) : p a = false := by
  induction l with
  | nil => simp [List.dropWhile] at h
  | cons x t ih =>
    rw [List.dropWhile_cons] at h
    by_cases hx : p x = true
    · rw [if_pos hx] at h
      exact ih h
    · rw [if_neg hx] at h
      simp only [List.head?_cons, Option.some.injEq] at h
      subst h
      simpa using hx

/-- `trim_end_matches('/')` leaves no trailing slash. -/
theorem trimEndSlashes_no_trailing (s : String) :
    endsWithSlash (trimEndSlashes s) = false := by
  show ((s.data.reverse.dropWhile (fun c => c == '/')).reverse.getLast? == some '/') = false
  rw [List.getLast?_reverse]
  cases hh : (s.data.reverse.dropWhile (fun c => c == '/')).head? with
  | none => rfl
  | some c =>
    have hc := head_dropWhile_false (fun c => c == '/') s.data.reverse c hh
    simpa using hc

/-- The insert loop run from an accumulator whose names, together with
those of the remaining input, never repeat, appends the input verbatim. -/
theorem foldl_insertHeader_of_distinct (hs : Headers) :
    ∀ acc : Headers, (acc ++ hs).Pairwise (fun a b => a.name ≠ b.name) →
      hs.foldl insertHeader acc = acc ++ hs := by
  induction hs with
  | nil => intro acc _; simp
  | cons e t ih =>
    intro acc hdist
    have hins : insertHeader acc e = acc ++ [e] := by
      unfold insertHeader
      congr 1
      rw [List.filter_eq_self]
      intro a ha
      have hne : a.name ≠ e.name :=
        (List.pairwise_append.mp hdist).2.2 a ha e (by simp)
      simpa [bne_iff_ne] using hne
    have h2 : ((acc ++ [e]) ++ t).Pairwise (fun a b => a.name ≠ b.name) := by
      simpa [List.append_assoc] using hdist
    calc (e :: t).foldl insertHeader acc
        = t.foldl insertHeader (insertHeader acc e) := by rw [List.foldl_cons]
      _ = t.foldl insertHeader (acc ++ [e]) := by rw [hins]
      _ = (acc ++ [e]) ++ t := ih (acc ++ [e]) h2
      _ = acc ++ e :: t := by simp

/-- When no upstream header name repeats, the response-header copy loop
reproduces the upstream header list verbatim. -/
theorem copyHeaders_of_distinct (hs : Headers)
    (hdist : hs.Pairwise (fun a b => a.name ≠ b.name)) :
    copyHeaders hs = hs := by
  have h := foldl_insertHeader_of_distinct hs [] (by simpa using hdist)
  simpa [copyHeaders] using h

/-- The insert loop preserves distinctness of the accumulated names. -/
theorem foldl_insertHeader_pairwise (hs : Headers) :
    ∀ acc : Headers, acc.Pairwise (fun a b => a.name ≠ b.name) →
      (hs.foldl insertHeader acc).Pairwise (fun a b => a.name ≠ b.name) := by
  induction hs with
  | nil => intro acc hacc; simpa using hacc
  | cons e t ih =>
    intro acc hacc
    rw [List.foldl_cons]
    apply ih
    unfold insertHeader
    rw [List.pairwise_append]
    refine ⟨List.Pairwise.filter _ hacc, by simp, ?_⟩
    intro a ha b hb
    have hname : (a.name != e.name) = true := (List.mem_filter.mp ha).2
    have hbe : b = e := by simpa using hb
    subst hbe
    simpa [bne_iff_ne] using hname

/-- The copied response headers hold at most one entry per name. -/
theorem copyHeaders_pairwise (hs : Headers) :
    (copyHeaders hs).Pairwise (fun a b => a.name ≠ b.name) :=
  foldl_insertHeader_pairwise hs [] (by simp)

/-! ## Claims -/

/-- C1 (counterexample): the upstream sends two `set-cookie` entries, but
the client only sees the second: the entry `set-cookie: a=1` occurs once
upstream and zero times in the relayed headers, so the relayed header
multiset is not the upstream's. -/
theorem C1_repeated_header_lost :
    (respond (Except.ok
        { status := 200
          headers := [{ name := "set-cookie", value := "a=1" },
                      { name := "set-cookie", value := "b=2" }]
          bodyChunks := [] })).headers.count
        { name := "set-cookie", value := "a=1" } = 0 ∧
    ([{ name := "set-cookie", value := "a=1" },
      { name := "set-cookie", value := "b=2" }] : Headers).count
        { name := "set-cookie", value := "a=1" } = 1 := by
  constructor <;> rfl

/-- C1 (amended): for every upstream response, the relayed status code is
the upstream's; the relayed headers never hold two entries of one name;
and whenever no upstream header name repeats, the full header list is
relayed byte-identical, unfiltered and unmodified. -/
theorem C1_response_passthrough (r : UpstreamResponse) :
    (respond (Except.ok r)).status = r.status ∧
    (respond (Except.ok r)).headers.Pairwise (fun a b => a.name ≠ b.name) ∧
    (r.headers.Pairwise (fun a b => a.name ≠ b.name) →
      (respond (Except.ok r)).headers = r.headers) := by
  refine ⟨rfl, copyHeaders_pairwise r.headers, ?_⟩
  intro hdist
  show copyHeaders r.headers = r.headers
  exact copyHeaders_of_distinct r.headers hdist

/-- C1 (witness): a concrete 200 response with one `content-type` header
is relayed with the same status and the identical header list. -/
theorem C1_response_passthrough_witness :
    (respond (Except.ok
        { status := 200
          headers := [{ name := "content-type", value := "application/json" }]
          bodyChunks := [[123, 125]] })).status = 200 ∧
    (respond (Except.ok
        { status := 200
          headers := [{ name := "content-type", value := "application/json" }]
          bodyChunks := [[123, 125]] })).headers
      = [{ name := "content-type", value := "application/json" }] := by
  have h := C1_response_passthrough
    { status := 200
      headers := [{ name := "content-type", value := "application/json" }]
      bodyChunks := [[123, 125]] }
  exact ⟨h.1, h.2.2 (by simp)⟩

/-- C2 (counterexample): an inbound `x-real-ip` header survives
sanitization: the code never removes `x-real-ip`, so the outbound set
does contain an `x-real-ip` entry. -/
theorem C2_x_real_ip_survives :
    ({ name := "x-real-ip", value := "1.2.3.4" } : HeaderEntry) ∈
      sanitizeHeaders [{ name := "x-real-ip", value := "1.2.3.4" }] := by
  decide

/-- C2 (amended): the outbound header set contains no `host`,
`cf-connecting-ip`, `cf-ipcountry`, `x-forwarded-for` or `content-length`
entries (matched case-insensitively) — `x-real-ip` is not removed — and
contains every other inbound header entry unchanged, with its inbound
multiplicity. -/
theorem C2_sanitize_denylist (hs : Headers) (h : HeaderEntry) :
    (lowerName h.name ∈ removedNames → h ∉ sanitizeHeaders hs) ∧
    (lowerName h.name ∉ removedNames →
      (sanitizeHeaders hs).count h = hs.count h) := by
  rw [sanitizeHeaders_eq_filter]
  constructor
  · intro hmem hcontra
    have hk : keptEntry h = true := (List.mem_filter.mp hcontra).2
    have hnc : removedNames.contains (lowerName h.name) = false := by
      simpa [keptEntry] using hk
    have : lowerName h.name ∉ removedNames := by simpa using hnc
    exact this hmem
  · intro hmem
    apply List.count_filter
    simp only [keptEntry]
    simpa using hmem

/-- C2 (witness): sanitizing `[Host: example.com, authorization: Bearer xyz]`
drops the `Host` entry and keeps the `authorization` entry with its
multiplicity. -/
theorem C2_sanitize_denylist_witness :
    (({ name := "Host", value := "example.com" } : HeaderEntry) ∉
      sanitizeHeaders [{ name := "Host", value := "example.com" },
                       { name := "authorization", value := "Bearer xyz" }]) ∧
    (sanitizeHeaders [{ name := "Host", value := "example.com" },
                      { name := "authorization", value := "Bearer xyz" }]).count
        { name := "authorization", value := "Bearer xyz" }
      = ([{ name := "Host", value := "example.com" },
          { name := "authorization", value := "Bearer xyz" }] : Headers).count
          { name := "authorization", value := "Bearer xyz" } := by
  constructor
  · exact (C2_sanitize_denylist
      [{ name := "Host", value := "example.com" },
       { name := "authorization", value := "Bearer xyz" }]
      { name := "Host", value := "example.com" }).1 (by decide)
  · exact (C2_sanitize_denylist
      [{ name := "Host", value := "example.com" },
       { name := "authorization", value := "Bearer xyz" }]
      { name := "authorization", value := "Bearer xyz" }).2 (by decide)

/-- C3: for every inbound request, the outbound method is the inbound
method and the outbound URL is the stored upstream target (the configured
target with trailing slashes trimmed at startup) concatenated with the
inbound path-and-query; the stored target never ends in a slash, so no
double slash is introduced at the junction and no trailing slash is ever
appended, and the query string is preserved verbatim inside
`pathAndQuery`. -/
theorem C3_outbound_method_and_url (cfg : ClientConfig) (target : String)
    (req : InboundRequest) :
    (buildOutbound { clientConfig := cfg, targetUrl := trimEndSlashes target }
        req).method = req.method ∧
    (buildOutbound { clientConfig := cfg, targetUrl := trimEndSlashes target }
        req).url = trimEndSlashes target ++ req.pathAndQuery.getD "/" ∧
    endsWithSlash (trimEndSlashes target) = false :=
  ⟨rfl, rfl, trimEndSlashes_no_trailing target⟩

/-- C4: on a successful upstream reply the body handed to the client is
the upstream chunk stream itself — byte-identical, chunk boundaries
intact (delivered incrementally, never materialized into a `full` body) —
and the client is built with automatic gzip decompression disabled, so
compressed bytes pass through unmodified. -/
theorem C4_body_stream_passthrough (r : UpstreamResponse) :
    (respond (Except.ok r)).body = RespBody.stream r.bodyChunks ∧
    baseClientConfig.gzipEnabled = false :=
  ⟨rfl, rfl⟩

/-- C5 (counterexample): a request carrying a 1 GiB body — beyond any
configured cap (the spec recommends at most 64 MiB) — is dispatched to
the upstream (one outbound request is sent) and the client receives the
upstream's 200, not 400: no size check exists and the upstream is
contacted. -/
theorem C5_large_body_forwarded :
    (proxyHandler
        { clientConfig := baseClientConfig, targetUrl := "https://upstream" }
        { method := "POST", pathAndQuery := some "/v1/upload", headers := [],
          bodyChunks := [List.replicate (2 ^ 30) 55] }
        (fun _ => Except.ok { status := 200, headers := [], bodyChunks := [] })).2.length
      = 1 ∧
    (proxyHandler
        { clientConfig := baseClientConfig, targetUrl := "https://upstream" }
        { method := "POST", pathAndQuery := some "/v1/upload", headers := [],
          bodyChunks := [List.replicate (2 ^ 30) 55] }
        (fun _ => Except.ok { status := 200, headers := [], bodyChunks := [] })).1.status
      = 200 :=
  ⟨rfl, rfl⟩

/-- C5 (amended): the handler imposes no body-size cap: every inbound
request, whatever its body size, is dispatched to the upstream exactly
once, and the handler's own failure path is always 502 — it never
produces a 400 of its own. -/
theorem C5_no_body_cap (st : AppState) (req : InboundRequest)
    (send : OutboundRequest → Except String UpstreamResponse) (e : String) :
    (proxyHandler st req send).2 = [buildOutbound st req] ∧
    (proxyHandler st req (fun _ => Except.error e)).1.status = 502 :=
  ⟨rfl, rfl⟩

/-- C6: when the upstream dispatch fails with error text `e`, the client
receives the single, fully-materialized (non-streamed) 502 response whose
plain-text body is `"Proxy Error: " ++ e` — containing the underlying
error's textual description — and exactly one dispatch was attempted (no
retry); the handler returns this response rather than propagating the
error. -/
theorem C6_dispatch_failure_502 (st : AppState) (req : InboundRequest)
    (e : String) :
    proxyHandler st req (fun _ => Except.error e) =
      ({ status := 502, headers := [],
         body := RespBody.full ("Proxy Error: " ++ e) },
       [buildOutbound st req]) :=
  rfl

/-- C7: the outbound header set of every relayed request — all request
bodies are relayed as streams — contains no `content-length` entry,
whatever the inbound request carried. -/
theorem C7_no_content_length (st : AppState) (req : InboundRequest) :
    ((buildOutbound st req).headers).all
      (fun h => lowerName h.name != "content-length") = true := by
  rw [List.all_eq_true]
  intro h hmem
  have hmem2 : h ∈ sanitizeHeaders req.headers := hmem
  rw [sanitizeHeaders_eq_filter] at hmem2
  have hk : keptEntry h = true := (List.mem_filter.mp hmem2).2
  have hn : lowerName h.name ∉ removedNames := by simpa [keptEntry] using hk
  have hne : lowerName h.name ≠ "content-length" := by
    intro he
    exact hn (by rw [he]; simp [removedNames])
  simpa [bne_iff_ne] using hne

/-- C8: header sanitization is idempotent: sanitizing twice yields the
same outbound header set as sanitizing once. -/
theorem C8_sanitize_idempotent (hs : Headers) :
    sanitizeHeaders (sanitizeHeaders hs) = sanitizeHeaders hs := by
  rw [sanitizeHeaders_eq_filter hs, sanitizeHeaders_eq_filter,
    List.filter_filter]
  exact List.filter_congr (fun x _ => Bool.and_self (keptEntry x))

/-- C9: when the configured outbound proxy URL fails to parse, startup
aborts with the fatal error before any `AppState` exists — so before any
request can be served — and proxy-URL validity plays no part in
`proxyHandler`, which only ever sees a successfully built `AppState`. -/
theorem C9_malformed_proxy_fatal (parseProxy : String → Option String)
    (args : Args) (purl : String)
    (hp : args.proxy = some purl) (hbad : parseProxy purl = none) :
    startup parseProxy args = Except.error "代理地址格式错误" := by
  simp [startup, buildClient, hp, hbad, Except.map]

/-- C9 (witness): startup with an unparsable proxy URL fails with the
fatal configuration error. -/
theorem C9_malformed_proxy_fatal_witness :
    startup (fun _ => none)
        { listen := "0.0.0.0:3000", proxy := some "not a url",
          target := "https://generativelanguage.googleapis.com",
          insecure := false }
      = Except.error "代理地址格式错误" :=
  C9_malformed_proxy_fatal (fun _ => none)
    { listen := "0.0.0.0:3000", proxy := some "not a url",
      target := "https://generativelanguage.googleapis.com",
      insecure := false }
    "not a url" rfl rfl

/-- C10: when the inbound URI has no path-and-query, the outbound URL is
the stored target followed by "/": the path defaults to "/" instead of
failing or yielding the bare target. -/
theorem C10_default_path_slash (st : AppState) (m : String) (hs : Headers)
    (b : List Chunk) :
    (buildOutbound st
        { method := m, pathAndQuery := none, headers := hs,
          bodyChunks := b }).url
      = st.targetUrl ++ "/" :=
  rfl
